import Mathlib

/-!
Verification of the court-booking engine of `courtbooking.py`.

The booking engine is embedded shallowly:

* The `bookings` and `logs` Supabase tables become lists of records inside a
  `Store`; the database's auto-assigned primary key becomes the `nextId`
  counter.
* Calendar dates are embedded as day numbers (`Nat`).  The source compares
  dates either as ISO `YYYY-MM-DD` strings (`is_slot_in_past`, line 96) or
  through the database's date ordering (`date.gt.`/`date.lt.` filters); both
  orders coincide with chronological order, hence with the order on day
  numbers.
* The UTC+4 clock readings used by the source (`get_today()`,
  `get_utc_plus_4().hour`, `.minute`) are gathered in a `Now` record and
  passed explicitly; within one request the source reads the clock once per
  helper, which a single `Now` value models for a sequential run.
* The booking handler ("Confirm & Book Slot", lines 436-455) together with
  the hour filter of `get_available_hours` (line 194) becomes the function
  `book`; each Python helper keeps its name.
-/

set_option linter.unusedVariables false

namespace Courtbooking

/-- A reading of the UTC+4 clock (`get_utc_plus_4`, `get_today`): `today` is
the current date as a day number, `hour` and `minute` the current time of
day. -/
structure Now where
  today : Nat
  hour : Nat
  minute : Nat
deriving DecidableEq, Repr

/-- A row of the `bookings` table: the auto-assigned `id`, the claimant
(`villa`, `sub_community`), and the reserved `court`, `date` and
`start_hour`, exactly the columns inserted by `book_slot` (lines 102-109). -/
structure Reservation where
  id : Nat
  villa : String
  sub_community : String
  court : String
  date : Nat
  start_hour : Nat
deriving DecidableEq, Repr

/-- A row of the `logs` table as written by `add_log` (lines 36-42).  The
source stores an `event_type` plus a free-text detail; for the two booking
events the detail string is formatted from exactly the claimant, court, date
and start hour (lines 110 and 126), which we keep as structured fields. -/
structure LogEntry where
  event_type : String
  sub_community : String
  villa : String
  court : String
  date : Nat
  start_hour : Nat
deriving DecidableEq, Repr

/-- The persistent database state: the `bookings` table, the `logs` table,
and the id the database will assign to the next inserted booking row. -/
structure Store where
  bookings : List Reservation
  logs : List LogEntry
  nextId : Nat
deriving DecidableEq, Repr

/-- The row filter of `get_active_bookings_count` (line 71),
`date.gt.today OR (date.eq.today AND start_hour.gte.now_hour)`, expressed on
a bare (date, start hour) pair. -/
def outstandingSlot (now : Now) (date start_hour : Nat) : Bool :=
  decide (now.today < date) || (date == now.today && decide (now.hour ≤ start_hour))

/-- The filter of `get_active_bookings_count` applied to a stored row. -/
def outstandingRow (now : Now) (b : Reservation) : Bool :=
  outstandingSlot now b.date b.start_hour

/-- Lines 65-73: count of the claimant's rows whose date is after today, or
today with a start hour at or after the current hour. -/
def get_active_bookings_count (s : Store) (now : Now) (villa sub_community : String) : Nat :=
  (s.bookings.filter (fun b =>
    b.villa == villa && b.sub_community == sub_community && outstandingRow now b)).length

/-- Lines 76-82: count of the claimant's rows on the given date, with no
condition on the hour or the court. -/
def get_daily_bookings_count (s : Store) (villa sub_community : String) (date : Nat) : Nat :=
  (s.bookings.filter (fun b =>
    b.villa == villa && b.sub_community == sub_community && b.date == date)).length

/-- Lines 85-91: whether some row reserves the (court, date, start hour)
triple. -/
def is_slot_booked (s : Store) (court : String) (date start_hour : Nat) : Bool :=
  s.bookings.any (fun b => b.court == court && b.date == date && b.start_hour == start_hour)

/-- Lines 93-100: the Elapsed test.  A slot is in the past when its date is
before today; on today, when its hour is before the current hour, or equals
the current hour with the current minute positive. -/
def is_slot_in_past (now : Now) (date start_hour : Nat) : Bool :=
  if date < now.today then true
  else if now.today < date then false
  else if start_hour < now.hour then true
  else if start_hour = now.hour ∧ 0 < now.minute then true
  else false

/-- Lines 102-111: insert the reservation row and append a
"Booking Created" log entry. -/
def book_slot (s : Store) (villa sub_community court : String) (date start_hour : Nat) : Store :=
  { bookings := s.bookings ++ [⟨s.nextId, villa, sub_community, court, date, start_hour⟩],
    logs := s.logs ++ [⟨"Booking Created", sub_community, villa, court, date, start_hour⟩],
    nextId := s.nextId + 1 }

/-- The error outcomes of a booking request, named as in the specification;
the source surfaces them as the error messages of lines 438, 440, 442 and
446. -/
inductive BookErr where
  | SlotExpired
  | GlobalQuotaExceeded
  | DailyQuotaExceeded
  | SlotAlreadyBooked
deriving DecidableEq, Repr

/-- One sequential booking request, as decided by the "Confirm & Book Slot"
handler (lines 436-455) together with the slot filter that feeds it.  An
elapsed hour is removed from the selectable hours by `get_available_hours`
(line 194), so a request for it fails before any other check; the handler
then rejects on the global quota (line 439), the daily quota (line 441) and
the write-time re-check of `is_slot_booked` (line 445), in that order, and
otherwise inserts via `book_slot` (line 448). -/
def book (s : Store) (now : Now) (villa sub_community court : String) (date start_hour : Nat) :
    Except BookErr Store :=
  if is_slot_in_past now date start_hour then .error .SlotExpired
  else if 6 ≤ get_active_bookings_count s now villa sub_community then .error .GlobalQuotaExceeded
  else if 2 ≤ get_daily_bookings_count s villa sub_community date then .error .DailyQuotaExceeded
  else if is_slot_booked s court date start_hour then .error .SlotAlreadyBooked
  else .ok (book_slot s villa sub_community court date start_hour)

/-- Lines 122-129: cancellation.  The source first looks the id up with
`.select(...).single().execute()`; with zero matching rows PostgREST
answers 406 (PGRST116) and the client raises `APIError`, so the call aborts
before any log or delete — modelled as the error outcome.  When the row
exists, its court, date and start hour are logged as "Booking Deleted" —
the ownership columns are not consulted for the log — and then every row
matching id AND villa AND sub_community is deleted; nothing in the result
says whether the delete removed any row. -/
def delete_booking (s : Store) (booking_id : Nat) (villa sub_community : String) :
    Except Unit Store :=
  match s.bookings.find? (fun b => b.id == booking_id) with
  | none => .error ()
  | some b =>
    .ok { bookings := s.bookings.filter (fun r =>
            !(r.id == booking_id && r.villa == villa && r.sub_community == sub_community)),
          logs := s.logs ++
            [⟨"Booking Deleted", sub_community, villa, b.court, b.date, b.start_hour⟩],
          nextId := s.nextId }

/-- Lines 175-181: the expiry sweep, issued as two deletes — every row with
`date < today`, then every row with `date == today` and
`start_hour < current_hour`. -/
def delete_expired_bookings (s : Store) (now : Now) : Store :=
  let s1 : Store :=
    { s with bookings := s.bookings.filter (fun b => !(decide (b.date < now.today))) }
  { s1 with bookings := s1.bookings.filter (fun b =>
      !(b.date == now.today && decide (b.start_hour < now.hour))) }

/-- The row predicate the reclaim sweep deletes by: date before today, or
today with an hour before the current hour. -/
def expiredRow (now : Now) (b : Reservation) : Bool :=
  decide (b.date < now.today) || (b.date == now.today && decide (b.start_hour < now.hour))

/-- Line 22: `list(range(7, 22))`, the bookable start hours. -/
def start_hours : List Nat := List.range' 7 15

/-- Lines 188-196: the hours offered for booking — in range, not reserved on
this court and date, and not elapsed. -/
def get_available_hours (s : Store) (now : Now) (court : String) (date : Nat) : List Nat :=
  let booked_hours :=
    (s.bookings.filter (fun b => b.court == court && b.date == date)).map
      (fun b => b.start_hour)
  start_hours.filter (fun h => !(booked_hours.contains h) && !(is_slot_in_past now date h))

/-- A booking request: the claimant plus the slot it asks for. -/
structure Request where
  villa : String
  sub_community : String
  court : String
  date : Nat
  start_hour : Nat
deriving DecidableEq, Repr

/-- Run one request against the store: a successful request installs the
inserted state, a rejected one leaves the store untouched (the handler only
shows the error message). -/
def applyBook (s : Store) (now : Now) (r : Request) : Store :=
  match book s now r.villa r.sub_community r.court r.date r.start_hour with
  | .ok s' => s'
  | .error _ => s

/-- Run a list of sequential requests in order. -/
def runBooks (s : Store) (now : Now) : List Request → Store
  | [] => s
  | r :: rs => runBooks (applyBook s now r) now rs

/-- Number of rows reserving a given (court, date, start hour) triple. -/
def slotCount (s : Store) (court : String) (date start_hour : Nat) : Nat :=
  (s.bookings.filter (fun b =>
    b.court == court && b.date == date && b.start_hour == start_hour)).length

/-- The mutual-exclusion invariant: every slot is reserved at most once. -/
def UniqueSlots (s : Store) : Prop :=
  ∀ court date start_hour, slotCount s court date start_hour ≤ 1

/-- A store with no rows, as a starting point for booking sequences. -/
def emptyStore : Store := ⟨[], [], 1⟩

/-- Concrete clock for witnesses: day 100, 10:00 sharp. -/
def wNow : Now := ⟨100, 10, 0⟩

/-- Concrete clock for witnesses: day 100, 10:30. -/
def wNowAfter : Now := ⟨100, 10, 30⟩

/-- Witness store holding one reservation by villa 7 for court "Mira 2",
day 101, hour 9. -/
def wBookedStore : Store := ⟨[⟨1, "7", "Mira 1", "Mira 2", 101, 9⟩], [], 2⟩

/-- Witness store in which villa 7 already holds six future reservations. -/
def wFullStore : Store :=
  ⟨[⟨1, "7", "Mira 1", "Mira 2", 101, 9⟩,
    ⟨2, "7", "Mira 1", "Mira 2", 102, 9⟩,
    ⟨3, "7", "Mira 1", "Mira 4", 103, 9⟩,
    ⟨4, "7", "Mira 1", "Mira 4", 104, 9⟩,
    ⟨5, "7", "Mira 1", "Mira 5A", 105, 9⟩,
    ⟨6, "7", "Mira 1", "Mira 5B", 106, 9⟩], [], 7⟩

/-- Witness store for the validation order: villa 7 holds six outstanding
reservations and also the already-elapsed slot ("Mira 2", day 100, hour 7)
it will ask for again. -/
def wOrderStore : Store :=
  ⟨[⟨1, "7", "Mira 1", "Mira 2", 101, 9⟩,
    ⟨2, "7", "Mira 1", "Mira 2", 102, 9⟩,
    ⟨3, "7", "Mira 1", "Mira 4", 103, 9⟩,
    ⟨4, "7", "Mira 1", "Mira 4", 104, 9⟩,
    ⟨5, "7", "Mira 1", "Mira 5A", 105, 9⟩,
    ⟨6, "7", "Mira 1", "Mira 5B", 106, 9⟩,
    ⟨7, "7", "Mira 1", "Mira 2", 100, 7⟩], [], 8⟩

/-- Witness store in which villa 7 already holds two reservations on
day 101. -/
def wDailyStore : Store :=
  ⟨[⟨1, "7", "Mira 1", "Mira 2", 101, 8⟩,
    ⟨2, "7", "Mira 1", "Mira 4", 101, 9⟩], [], 3⟩

/-- Witness store for the reclaim sweep: one stale row, one row from earlier
today, and two live rows. -/
def wReclaimStore : Store :=
  ⟨[⟨1, "7", "Mira 1", "Mira 2", 99, 9⟩,
    ⟨2, "7", "Mira 1", "Mira 2", 100, 8⟩,
    ⟨3, "8", "Mira 2", "Mira 4", 100, 15⟩,
    ⟨4, "9", "Mira 3", "Mira 5A", 101, 7⟩], [], 5⟩

/-- Store for the cancellation counterexample: villa 7 owns reservation 1;
villa 9 will try to cancel it. -/
def cx7Store : Store := ⟨[⟨1, "7", "Mira 1", "Mira 2", 101, 9⟩], [], 2⟩

/-- Store for the deletion-log counterexample: villa 7 owns reservation 1;
villa 9 will try to cancel it. -/
def cx8Store : Store := ⟨[⟨1, "7", "Mira 1", "Mira 4", 102, 8⟩], [], 2⟩

/-- The state produced by villa 9's cancel call on villa 7's reservation in
`cx7Store`: the table is untouched, a spurious Deleted entry is logged. -/
def wC7Result : Store :=
  ⟨[⟨1, "7", "Mira 1", "Mira 2", 101, 9⟩],
   [⟨"Booking Deleted", "Mira 1", "9", "Mira 2", 101, 9⟩], 2⟩

/-- The state produced by villa 7 cancelling its own reservation in
`cx8Store`: the row is gone and one Deleted entry is logged. -/
def wC8Result : Store :=
  ⟨[], [⟨"Booking Deleted", "Mira 1", "7", "Mira 4", 102, 8⟩], 2⟩

/-- Witness store for the stale-daily-quota claim: villa 7 holds two
reservations earlier today (hours 7 and 8, both before 10:00) and nothing
else. -/
def wStaleStore : Store :=
  ⟨[⟨1, "7", "Mira 1", "Mira 2", 100, 7⟩,
    ⟨2, "7", "Mira 1", "Mira 4", 100, 8⟩], [], 3⟩

/-! Basic lemmas about the embedded operations. -/

/-- Propositional form of the Elapsed test. -/
lemma is_slot_in_past_iff (now : Now) (date start_hour : Nat) :
    is_slot_in_past now date start_hour = true ↔
      date < now.today ∨
        (date = now.today ∧
          (start_hour < now.hour ∨ (start_hour = now.hour ∧ 0 < now.minute))) := by
  unfold is_slot_in_past
  split_ifs with h1 h2 h3 h4 <;> simp <;> omega

/-- Propositional form of the outstanding filter. -/
lemma outstandingSlot_iff (now : Now) (date start_hour : Nat) :
    outstandingSlot now date start_hour = true ↔
      now.today < date ∨ (date = now.today ∧ now.hour ≤ start_hour) := by
  simp [outstandingSlot, Bool.or_eq_true, Bool.and_eq_true, decide_eq_true_eq, beq_iff_eq]

/-- Appending one row changes a filtered length by at most its own match. -/
lemma length_filter_append_singleton (l : List Reservation) (x : Reservation)
    (p : Reservation → Bool) :
    ((l ++ [x]).filter p).length = (l.filter p).length + (if p x then 1 else 0) := by
  rw [List.filter_append]
  cases hx : p x <;> simp [List.filter_cons, hx]

/-- Effect of `book_slot` on an active-bookings count. -/
lemma active_count_book_slot (s : Store) (now : Now) (villa sub_community court : String)
    (date start_hour : Nat) (v c : String) :
    get_active_bookings_count (book_slot s villa sub_community court date start_hour) now v c =
      get_active_bookings_count s now v c +
        (if (villa == v && sub_community == c && outstandingSlot now date start_hour)
          then 1 else 0) := by
  unfold get_active_bookings_count book_slot
  rw [length_filter_append_singleton]
  rfl

/-- Effect of `book_slot` on a slot count. -/
lemma slotCount_book_slot (s : Store) (villa sub_community court : String)
    (date start_hour : Nat) (c : String) (d h : Nat) :
    slotCount (book_slot s villa sub_community court date start_hour) c d h =
      slotCount s c d h +
        (if (court == c && date == d && start_hour == h) then 1 else 0) := by
  unfold slotCount book_slot
  rw [length_filter_append_singleton]

/-- An unreserved slot has no rows. -/
lemma slotCount_eq_zero_of_not_booked (s : Store) (court : String) (date start_hour : Nat)
    (hb : is_slot_booked s court date start_hour = false) :
    slotCount s court date start_hour = 0 := by
  unfold is_slot_booked at hb
  unfold slotCount
  rw [List.length_eq_zero, List.filter_eq_nil_iff]
  rw [List.any_eq_false] at hb
  exact hb

/-- A successful `book` certifies every check and describes the new state. -/
lemma book_ok_elim (s : Store) (now : Now) (villa sub_community court : String)
    (date start_hour : Nat) (s' : Store)
    (hok : book s now villa sub_community court date start_hour = .ok s') :
    is_slot_in_past now date start_hour = false ∧
      get_active_bookings_count s now villa sub_community < 6 ∧
      get_daily_bookings_count s villa sub_community date < 2 ∧
      is_slot_booked s court date start_hour = false ∧
      s' = book_slot s villa sub_community court date start_hour := by
  unfold book at hok
  split_ifs at hok with h1 h2 h3 h4
  exact ⟨by simpa using h1, by omega, by omega, by simpa using h4,
    (Except.ok.inj hok).symm⟩

/-- One request preserves the global-quota ceiling for every claimant. -/
lemma applyBook_quota (s : Store) (now : Now) (r : Request)
    (hs : ∀ v c, get_active_bookings_count s now v c ≤ 6) :
    ∀ v c, get_active_bookings_count (applyBook s now r) now v c ≤ 6 := by
  intro v c
  unfold applyBook
  cases hb : book s now r.villa r.sub_community r.court r.date r.start_hour with
  | error e => exact hs v c
  | ok s' =>
    obtain ⟨-, hlt, -, -, hs'⟩ := book_ok_elim _ _ _ _ _ _ _ _ hb
    subst hs'
    rw [active_count_book_slot]
    by_cases hm : (r.villa == v && r.sub_community == c &&
        outstandingSlot now r.date r.start_hour) = true
    · rw [if_pos hm]
      simp only [Bool.and_eq_true, beq_iff_eq] at hm
      obtain ⟨⟨hv, hc⟩, -⟩ := hm
      subst hv
      subst hc
      omega
    · rw [if_neg hm]
      simpa using hs v c

/-- A sequence of requests preserves the global-quota ceiling. -/
lemma runBooks_quota (now : Now) (rs : List Request) :
    ∀ s : Store, (∀ v c, get_active_bookings_count s now v c ≤ 6) →
      ∀ v c, get_active_bookings_count (runBooks s now rs) now v c ≤ 6 := by
  induction rs with
  | nil => intro s hs; exact hs
  | cons r rs ih => intro s hs; exact ih _ (applyBook_quota s now r hs)

/-- One request preserves mutual exclusion of slots. -/
lemma applyBook_unique (s : Store) (now : Now) (r : Request) (hu : UniqueSlots s) :
    UniqueSlots (applyBook s now r) := by
  unfold applyBook
  cases hb : book s now r.villa r.sub_community r.court r.date r.start_hour with
  | error e => exact hu
  | ok s' =>
    obtain ⟨-, -, -, hnb, hs'⟩ := book_ok_elim _ _ _ _ _ _ _ _ hb
    subst hs'
    intro c d h
    rw [slotCount_book_slot]
    by_cases hm : (r.court == c && r.date == d && r.start_hour == h) = true
    · rw [if_pos hm]
      simp only [Bool.and_eq_true, beq_iff_eq] at hm
      obtain ⟨⟨h1, h2⟩, h3⟩ := hm
      subst h1
      subst h2
      subst h3
      rw [slotCount_eq_zero_of_not_booked _ _ _ _ hnb]
    · rw [if_neg hm]
      simpa using hu c d h

/-- A sequence of requests preserves mutual exclusion of slots. -/
lemma runBooks_unique (now : Now) (rs : List Request) :
    ∀ s : Store, UniqueSlots s → UniqueSlots (runBooks s now rs) := by
  induction rs with
  | nil => intro s hs; exact hs
  | cons r rs ih => intro s hs; exact ih _ (applyBook_unique s now r hs)

/-- The two deletes of the expiry sweep amount to one filter by the expiry
predicate. -/
lemma delete_expired_eq (s : Store) (now : Now) :
    delete_expired_bookings s now =
      { s with bookings := s.bookings.filter (fun b => !(expiredRow now b)) } := by
  cases s with
  | mk bs ls n =>
    simp only [delete_expired_bookings, expiredRow]
    congr 1
    rw [List.filter_filter]
    apply List.filter_congr
    intro b hbmem
    cases h1 : decide (b.date < now.today) <;>
      cases h2 : (b.date == now.today && decide (b.start_hour < now.hour)) <;>
        simp [h1, h2]

/-- Filtering twice by one predicate equals filtering once. -/
lemma filter_twice (l : List Reservation) (k : Reservation → Bool) :
    (l.filter k).filter k = l.filter k := by
  rw [List.filter_filter]
  apply List.filter_congr
  intro b hbmem
  cases h1 : k b <;> simp [h1]

/-- Negated propositional form of the Elapsed test. -/
lemma is_slot_in_past_eq_false (now : Now) (date start_hour : Nat) :
    is_slot_in_past now date start_hour = false ↔
      ¬(date < now.today ∨
        (date = now.today ∧
          (start_hour < now.hour ∨ (start_hour = now.hour ∧ 0 < now.minute)))) := by
  rw [Bool.eq_false_iff, ne_eq, is_slot_in_past_iff]

/-- Negated propositional form of the outstanding filter. -/
lemma outstandingSlot_eq_false (now : Now) (date start_hour : Nat) :
    outstandingSlot now date start_hour = false ↔
      ¬(now.today < date ∨ (date = now.today ∧ now.hour ≤ start_hour)) := by
  rw [Bool.eq_false_iff, ne_eq, outstandingSlot_iff]

/-! The claims. -/

/-- C6: `reclaim()` deletes exactly the reservations with `date < today` or
with `date == today` and `start_hour < current hour` (the `bookings` table
becomes its filter by the negated expiry predicate, so every other
reservation survives unchanged and in order), touches neither the logs nor
the id counter, and is idempotent: a second run with no intervening writes
and an unchanged clock is the identity, deleting zero additional rows. -/
theorem C6_reclaim_exact_idempotent (s : Store) (now : Now) :
    (delete_expired_bookings s now).bookings
        = s.bookings.filter (fun b => !(expiredRow now b)) ∧
    (delete_expired_bookings s now).logs = s.logs ∧
    (delete_expired_bookings s now).nextId = s.nextId ∧
    delete_expired_bookings (delete_expired_bookings s now) now
        = delete_expired_bookings s now := by
  refine ⟨by rw [delete_expired_eq], by rw [delete_expired_eq], by rw [delete_expired_eq], ?_⟩
  rw [delete_expired_eq s now, delete_expired_eq]
  congr 1
  exact filter_twice _ _

/-- C3: boundary behaviour of the Elapsed test.  Today's current hour is not
elapsed at minute 0; once the minute is positive it is elapsed and a booking
request for it fails with SlotExpired; past dates and past hours of today
are always elapsed, future dates never. -/
theorem C3_boundary_consistency (now : Now) (date start_hour : Nat) :
    (date = now.today → start_hour = now.hour → now.minute = 0 →
       is_slot_in_past now date start_hour = false) ∧
    (date = now.today → start_hour = now.hour → 0 < now.minute →
       is_slot_in_past now date start_hour = true ∧
       ∀ (s : Store) (villa sub_community court : String),
         book s now villa sub_community court date start_hour = .error .SlotExpired) ∧
    (date < now.today → is_slot_in_past now date start_hour = true) ∧
    (date = now.today → start_hour < now.hour →
       is_slot_in_past now date start_hour = true) ∧
    (now.today < date → is_slot_in_past now date start_hour = false) := by
  refine ⟨?_, ?_, ?_, ?_, ?_⟩
  · intro h1 h2 h3
    rw [is_slot_in_past_eq_false]
    omega
  · intro h1 h2 h3
    have hp : is_slot_in_past now date start_hour = true := by
      rw [is_slot_in_past_iff]
      omega
    refine ⟨hp, ?_⟩
    intro s villa sub_community court
    unfold book
    rw [if_pos hp]
  · intro h1
    rw [is_slot_in_past_iff]
    omega
  · intro h1 h2
    rw [is_slot_in_past_iff]
    omega
  · intro h1
    rw [is_slot_in_past_eq_false]
    omega

/-- Witness for C3 at the concrete clock day 100, 10:00 and 10:30. -/
theorem C3_witness :
    is_slot_in_past wNow 100 10 = false ∧
    book emptyStore wNowAfter "7" "Mira 1" "Mira 2" 100 10 = .error .SlotExpired ∧
    is_slot_in_past wNow 99 12 = true ∧
    is_slot_in_past wNow 100 9 = true ∧
    is_slot_in_past wNow 101 7 = false :=
  ⟨(C3_boundary_consistency wNow 100 10).1 rfl rfl rfl,
   ((C3_boundary_consistency wNowAfter 100 10).2.1 rfl rfl (by decide)).2
     emptyStore "7" "Mira 1" "Mira 2",
   (C3_boundary_consistency wNow 99 12).2.2.1 (by decide),
   (C3_boundary_consistency wNow 100 9).2.2.2.1 rfl (by decide),
   (C3_boundary_consistency wNow 101 7).2.2.2.2 (by decide)⟩

/-- C9: the Elapsed and outstanding predicates disagree exactly on a slot of
today's current hour once the minute is positive — such a slot is elapsed
yet still outstanding; a slot that is not outstanding is always elapsed; the
outstanding filter ignores the minute entirely, while the Elapsed test flips
on it at the current hour. -/
theorem C9_elapsed_outstanding_asymmetry (now : Now) (date start_hour : Nat) :
    ((is_slot_in_past now date start_hour = true ∧
        outstandingSlot now date start_hour = true) ↔
      (date = now.today ∧ start_hour = now.hour ∧ 0 < now.minute)) ∧
    (outstandingSlot now date start_hour = false →
       is_slot_in_past now date start_hour = true) ∧
    (∀ t hh m m' d hr, outstandingSlot ⟨t, hh, m⟩ d hr = outstandingSlot ⟨t, hh, m'⟩ d hr) ∧
    (∀ t hh, is_slot_in_past ⟨t, hh, 0⟩ t hh = false ∧
       is_slot_in_past ⟨t, hh, 1⟩ t hh = true) := by
  refine ⟨?_, ?_, ?_, ?_⟩
  · rw [is_slot_in_past_iff, outstandingSlot_iff]
    omega
  · intro h1
    rw [outstandingSlot_eq_false] at h1
    rw [is_slot_in_past_iff]
    omega
  · intro t hh m m' d hr
    rfl
  · intro t hh
    constructor
    · rw [is_slot_in_past_eq_false]
      dsimp only
      omega
    · rw [is_slot_in_past_iff]
      dsimp only
      omega

/-- Witness for C9 at the concrete clock day 100, 10:30. -/
theorem C9_witness :
    (is_slot_in_past wNowAfter 100 10 = true ∧ outstandingSlot wNowAfter 100 10 = true) ∧
    is_slot_in_past wNow 100 9 = true ∧
    outstandingSlot ⟨100, 10, 0⟩ 100 15 = outstandingSlot ⟨100, 10, 59⟩ 100 15 :=
  ⟨(C9_elapsed_outstanding_asymmetry wNowAfter 100 10).1.mpr ⟨rfl, rfl, by decide⟩,
   (C9_elapsed_outstanding_asymmetry wNow 100 9).2.1 (by decide),
   (C9_elapsed_outstanding_asymmetry wNow 0 0).2.2.1 100 10 0 59 100 15⟩

/-- C1: mutual exclusion of slots.  When a reservation already occupies the
requested (court, date, start hour) triple, a book request for it can never
succeed (nothing is inserted), and — the earlier checks of the validation
order passing — it reports SlotAlreadyBooked; consequently any sequence of
sequential book calls preserves the at-most-one-reservation-per-slot
invariant. -/
theorem C1_mutual_exclusion (s : Store) (now : Now) (villa sub_community court : String)
    (date start_hour : Nat) :
    (is_slot_booked s court date start_hour = true →
       (∀ s', book s now villa sub_community court date start_hour ≠ .ok s') ∧
       (is_slot_in_past now date start_hour = false →
        get_active_bookings_count s now villa sub_community < 6 →
        get_daily_bookings_count s villa sub_community date < 2 →
        book s now villa sub_community court date start_hour
          = .error .SlotAlreadyBooked)) ∧
    (UniqueSlots s → ∀ rs : List Request, UniqueSlots (runBooks s now rs)) := by
  constructor
  · intro hbk
    constructor
    · intro s' hok
      obtain ⟨-, -, -, hnb, -⟩ := book_ok_elim _ _ _ _ _ _ _ _ hok
      rw [hbk] at hnb
      simp at hnb
    · intro h1 h2 h3
      unfold book
      rw [if_neg (show ¬is_slot_in_past now date start_hour = true by simp [h1]),
        if_neg (show ¬6 ≤ get_active_bookings_count s now villa sub_community by omega),
        if_neg (show ¬2 ≤ get_daily_bookings_count s villa sub_community date by omega),
        if_pos hbk]
  · intro hu rs
    exact runBooks_unique now rs s hu

/-- Witness for C1: villa 9 asks for the slot villa 7 already holds. -/
theorem C1_witness :
    is_slot_booked wBookedStore "Mira 2" 101 9 = true ∧
    book wBookedStore wNow "9" "Mira 1" "Mira 2" 101 9 = .error .SlotAlreadyBooked ∧
    UniqueSlots (runBooks wBookedStore wNow []) := by
  have h := C1_mutual_exclusion wBookedStore wNow "9" "Mira 1" "Mira 2" 101 9
  refine ⟨by decide, (h.1 (by decide)).2 (by decide) (by decide) (by decide), h.2 ?_ []⟩
  intro c d hh
  unfold slotCount
  exact le_trans (List.length_filter_le _ _) (by decide)

/-- C2: the global quota ceiling.  A request whose slot is not elapsed is
rejected with GlobalQuotaExceeded as soon as the claimant's outstanding
count has reached 6, and from any store whose outstanding counts are all at
most 6 (the empty store in particular), any sequence of sequential book
calls at one clock reading keeps every claimant's outstanding count at most
6. -/
theorem C2_global_quota (s : Store) (now : Now) (villa sub_community court : String)
    (date start_hour : Nat) :
    (is_slot_in_past now date start_hour = false →
     6 ≤ get_active_bookings_count s now villa sub_community →
       book s now villa sub_community court date start_hour
         = .error .GlobalQuotaExceeded) ∧
    ((∀ v c, get_active_bookings_count s now v c ≤ 6) →
       ∀ (rs : List Request) (v c : String),
         get_active_bookings_count (runBooks s now rs) now v c ≤ 6) := by
  constructor
  · intro h1 h2
    unfold book
    rw [if_neg (show ¬is_slot_in_past now date start_hour = true by simp [h1]), if_pos h2]
  · intro hs rs v c
    exact runBooks_quota now rs s hs v c

/-- Witness for C2: villa 7 already holds six outstanding reservations. -/
theorem C2_witness :
    6 ≤ get_active_bookings_count wFullStore wNow "7" "Mira 1" ∧
    book wFullStore wNow "7" "Mira 1" "Mira Oasis 1" 107 9 = .error .GlobalQuotaExceeded ∧
    get_active_bookings_count
        (runBooks emptyStore wNow [⟨"7", "Mira 1", "Mira 2", 101, 9⟩]) wNow "7" "Mira 1"
      ≤ 6 := by
  have h := C2_global_quota wFullStore wNow "7" "Mira 1" "Mira Oasis 1" 107 9
  have h2 := C2_global_quota emptyStore wNow "7" "Mira 1" "Mira 2" 101 9
  refine ⟨by decide, h.1 (by decide) (by decide),
    h2.2 ?_ [⟨"7", "Mira 1", "Mira 2", 101, 9⟩] "7" "Mira 1"⟩
  intro v c
  unfold get_active_bookings_count emptyStore
  simp

/-- C4: the validation order of a book request.  The checks run in the fixed
order slot-not-elapsed, global quota, daily quota, slot-not-booked, the
first failing check naming the error: an elapsed slot yields SlotExpired
regardless of quotas or occupancy, the later errors each require every
earlier check to pass, and when all four pass the reservation is
inserted. -/
theorem C4_validation_order (s : Store) (now : Now) (villa sub_community court : String)
    (date start_hour : Nat) :
    (is_slot_in_past now date start_hour = true →
       book s now villa sub_community court date start_hour = .error .SlotExpired) ∧
    (is_slot_in_past now date start_hour = false →
     6 ≤ get_active_bookings_count s now villa sub_community →
       book s now villa sub_community court date start_hour
         = .error .GlobalQuotaExceeded) ∧
    (is_slot_in_past now date start_hour = false →
     get_active_bookings_count s now villa sub_community < 6 →
     2 ≤ get_daily_bookings_count s villa sub_community date →
       book s now villa sub_community court date start_hour
         = .error .DailyQuotaExceeded) ∧
    (is_slot_in_past now date start_hour = false →
     get_active_bookings_count s now villa sub_community < 6 →
     get_daily_bookings_count s villa sub_community date < 2 →
     is_slot_booked s court date start_hour = true →
       book s now villa sub_community court date start_hour
         = .error .SlotAlreadyBooked) ∧
    (is_slot_in_past now date start_hour = false →
     get_active_bookings_count s now villa sub_community < 6 →
     get_daily_bookings_count s villa sub_community date < 2 →
     is_slot_booked s court date start_hour = false →
       book s now villa sub_community court date start_hour
         = .ok (book_slot s villa sub_community court date start_hour)) := by
  refine ⟨?_, ?_, ?_, ?_, ?_⟩
  · intro h1
    unfold book
    rw [if_pos h1]
  · intro h1 h2
    unfold book
    rw [if_neg (show ¬is_slot_in_past now date start_hour = true by simp [h1]), if_pos h2]
  · intro h1 h2 h3
    unfold book
    rw [if_neg (show ¬is_slot_in_past now date start_hour = true by simp [h1]),
      if_neg (show ¬6 ≤ get_active_bookings_count s now villa sub_community by omega),
      if_pos h3]
  · intro h1 h2 h3 h4
    unfold book
    rw [if_neg (show ¬is_slot_in_past now date start_hour = true by simp [h1]),
      if_neg (show ¬6 ≤ get_active_bookings_count s now villa sub_community by omega),
      if_neg (show ¬2 ≤ get_daily_bookings_count s villa sub_community date by omega),
      if_pos h4]
  · intro h1 h2 h3 h4
    unfold book
    rw [if_neg (show ¬is_slot_in_past now date start_hour = true by simp [h1]),
      if_neg (show ¬6 ≤ get_active_bookings_count s now villa sub_community by omega),
      if_neg (show ¬2 ≤ get_daily_bookings_count s villa sub_community date by omega),
      if_neg (show ¬is_slot_booked s court date start_hour = true by simp [h4])]

/-- Witness for C4: the requested slot is elapsed, already booked, and the
claimant's global quota is exhausted, yet the error is SlotExpired; on an
empty store the same claimant's request goes through. -/
theorem C4_witness :
    is_slot_in_past wNow 100 7 = true ∧
    6 ≤ get_active_bookings_count wOrderStore wNow "7" "Mira 1" ∧
    is_slot_booked wOrderStore "Mira 2" 100 7 = true ∧
    book wOrderStore wNow "7" "Mira 1" "Mira 2" 100 7 = .error .SlotExpired ∧
    book emptyStore wNow "7" "Mira 1" "Mira 2" 101 9
      = .ok (book_slot emptyStore "7" "Mira 1" "Mira 2" 101 9) :=
  ⟨by decide, by decide, by decide,
   (C4_validation_order wOrderStore wNow "7" "Mira 1" "Mira 2" 100 7).1 (by decide),
   (C4_validation_order emptyStore wNow "7" "Mira 1" "Mira 2" 101 9).2.2.2.2
     (by decide) (by decide) (by decide) (by decide)⟩

/-- C5: the daily quota.  A request for a date on which the claimant already
holds 2 reservations is rejected with DailyQuotaExceeded (the earlier checks
passing), a request for a date with fewer than 2 is never rejected by the
daily check, and it succeeds outright when the remaining checks pass as
well. -/
theorem C5_daily_quota (s : Store) (now : Now) (villa sub_community court : String)
    (date start_hour date' start_hour' : Nat) :
    (is_slot_in_past now date start_hour = false →
     get_active_bookings_count s now villa sub_community < 6 →
     2 ≤ get_daily_bookings_count s villa sub_community date →
       book s now villa sub_community court date start_hour
         = .error .DailyQuotaExceeded) ∧
    (get_daily_bookings_count s villa sub_community date' < 2 →
       book s now villa sub_community court date' start_hour'
         ≠ .error .DailyQuotaExceeded) ∧
    (get_daily_bookings_count s villa sub_community date' < 2 →
     is_slot_in_past now date' start_hour' = false →
     get_active_bookings_count s now villa sub_community < 6 →
     is_slot_booked s court date' start_hour' = false →
       book s now villa sub_community court date' start_hour'
         = .ok (book_slot s villa sub_community court date' start_hour')) := by
  refine ⟨?_, ?_, ?_⟩
  · intro h1 h2 h3
    unfold book
    rw [if_neg (show ¬is_slot_in_past now date start_hour = true by simp [h1]),
      if_neg (show ¬6 ≤ get_active_bookings_count s now villa sub_community by omega),
      if_pos h3]
  · intro hd hcontra
    unfold book at hcontra
    split_ifs at hcontra with a b c d <;> first | omega | simp at hcontra
  · intro h1 h2 h3 h4
    unfold book
    rw [if_neg (show ¬is_slot_in_past now date' start_hour' = true by simp [h2]),
      if_neg (show ¬6 ≤ get_active_bookings_count s now villa sub_community by omega),
      if_neg (show ¬2 ≤ get_daily_bookings_count s villa sub_community date' by omega),
      if_neg (show ¬is_slot_booked s court date' start_hour' = true by simp [h4])]

/-- Witness for C5: villa 7 holds two reservations on day 101; a third
request that day is rejected, one for day 102 succeeds. -/
theorem C5_witness :
    2 ≤ get_daily_bookings_count wDailyStore "7" "Mira 1" 101 ∧
    book wDailyStore wNow "7" "Mira 1" "Mira 2" 101 10 = .error .DailyQuotaExceeded ∧
    book wDailyStore wNow "7" "Mira 1" "Mira 2" 102 9
      = .ok (book_slot wDailyStore "7" "Mira 1" "Mira 2" 102 9) := by
  have h := C5_daily_quota wDailyStore wNow "7" "Mira 1" "Mira 2" 101 10 102 9
  exact ⟨by decide, h.1 (by decide) (by decide) (by decide),
    h.2.2 (by decide) (by decide) (by decide) (by decide)⟩

/-- C7 counterexample: villa 9 cancels the reservation villa 7 owns.  The
id exists, so the lookup succeeds and the call completes without any error —
no NotFound or NotOwner is reported — returning a state whose reservation
table is unchanged and whose log gained a spurious "Booking Deleted"
entry. -/
theorem C7_counterexample :
    delete_booking cx7Store 1 "9" "Mira 1" =
      .ok ⟨cx7Store.bookings, [⟨"Booking Deleted", "Mira 1", "9", "Mira 2", 101, 9⟩], 2⟩ := by
  rfl

/-- C7 as amended: a cancel naming an id that matches no reservation fails
with the lookup error (the `.single()` raise, not a NotFound result) and
touches nothing, while a cancel whose id exists under a different claimant
completes without any error and leaves the reservation table unchanged — so
the table-unchanged half of the claim holds in both cases, but an ownership
mismatch produces no error report at all. -/
theorem C7_cancel_unmatched (s : Store) (booking_id : Nat) (villa sub_community : String) :
    (s.bookings.find? (fun b => b.id == booking_id) = none →
       delete_booking s booking_id villa sub_community = .error ()) ∧
    ((∀ b ∈ s.bookings,
        ¬(b.id = booking_id ∧ b.villa = villa ∧ b.sub_community = sub_community)) →
       ∀ s', delete_booking s booking_id villa sub_community = .ok s' →
         s'.bookings = s.bookings) := by
  constructor
  · intro hf
    unfold delete_booking
    rw [hf]
  · intro hnm s' hok
    unfold delete_booking at hok
    cases hfind : s.bookings.find? (fun b => b.id == booking_id) with
    | none =>
      rw [hfind] at hok
      simp at hok
    | some b =>
      rw [hfind] at hok
      dsimp only at hok
      obtain rfl := Except.ok.inj hok
      show s.bookings.filter _ = s.bookings
      rw [List.filter_eq_self]
      intro b' hb'
      cases hcase : (b'.id == booking_id && b'.villa == villa &&
          b'.sub_community == sub_community) with
      | false => simp [hcase]
      | true =>
        simp only [Bool.and_eq_true, beq_iff_eq] at hcase
        exact absurd ⟨hcase.1.1, hcase.1.2, hcase.2⟩ (hnm b' hb')

/-- Witness for the amended C7: a nonexistent-id cancel fails with the
lookup error, and villa 9's cancel of villa 7's reservation succeeds with
the reservation table unchanged. -/
theorem C7_witness :
    delete_booking cx7Store 77 "7" "Mira 1" = .error () ∧
    wC7Result.bookings = cx7Store.bookings := by
  have h1 := C7_cancel_unmatched cx7Store 77 "7" "Mira 1"
  have h2 := C7_cancel_unmatched cx7Store 1 "9" "Mira 1"
  exact ⟨h1.1 (by decide), h2.2 (by decide) wC7Result (by rfl)⟩

/-- C8 counterexample: villa 9's cancel call on villa 7's reservation
succeeds while deleting nothing, yet a "Booking Deleted" log entry is
appended — refuting the claim that no Deleted entry is appended by a cancel
call that deletes nothing. -/
theorem C8_counterexample :
    delete_booking cx8Store 1 "9" "Mira 1" =
      .ok ⟨cx8Store.bookings,
           cx8Store.logs ++ [⟨"Booking Deleted", "Mira 1", "9", "Mira 4", 102, 8⟩],
           cx8Store.nextId⟩ := by
  rfl

/-- C8 as amended: when a reservation with the requested id exists the call
succeeds and appends exactly one "Booking Deleted" entry capturing that
reservation's pre-deletion court, date and start hour — ownership is not
consulted for the log; when the id is absent the call fails on the lookup
and appends nothing; and on a genuinely owned cancellation the reservation
is deleted from the resulting table. -/
theorem C8_deleted_log (s : Store) (booking_id : Nat) (villa sub_community : String) :
    (∀ b, s.bookings.find? (fun r => r.id == booking_id) = some b →
       delete_booking s booking_id villa sub_community =
         .ok { bookings := s.bookings.filter (fun r =>
                 !(r.id == booking_id && r.villa == villa &&
                   r.sub_community == sub_community)),
               logs := s.logs ++
                 [⟨"Booking Deleted", sub_community, villa, b.court, b.date, b.start_hour⟩],
               nextId := s.nextId }) ∧
    (s.bookings.find? (fun r => r.id == booking_id) = none →
       delete_booking s booking_id villa sub_community = .error ()) ∧
    (∀ b, s.bookings.find? (fun r => r.id == booking_id) = some b → b.villa = villa →
       b.sub_community = sub_community →
       ∀ s', delete_booking s booking_id villa sub_community = .ok s' →
         b ∉ s'.bookings) := by
  refine ⟨?_, ?_, ?_⟩
  · intro b hf
    unfold delete_booking
    rw [hf]
  · intro hf
    unfold delete_booking
    rw [hf]
  · intro b hf hv hc s' hok
    unfold delete_booking at hok
    rw [hf] at hok
    dsimp only at hok
    obtain rfl := Except.ok.inj hok
    show b ∉ s.bookings.filter (fun r =>
      !(r.id == booking_id && r.villa == villa && r.sub_community == sub_community))
    intro hmem
    rw [List.mem_filter] at hmem
    have hp : (b.id == booking_id) = true := by
      have h0 := List.find?_some hf
      exact h0
    have hvb : (b.villa == villa) = true := by
      rw [beq_iff_eq]
      exact hv
    have hcb : (b.sub_community == sub_community) = true := by
      rw [beq_iff_eq]
      exact hc
    simp [hp, hvb, hcb] at hmem

/-- Witness for the amended C8: villa 7 cancels its own reservation — the
call succeeds appending exactly one Deleted entry capturing court, date and
hour, and the row is gone from the result. -/
theorem C8_witness :
    cx8Store.bookings.find? (fun r => r.id == 1)
        = some ⟨1, "7", "Mira 1", "Mira 4", 102, 8⟩ ∧
    delete_booking cx8Store 1 "7" "Mira 1" =
      .ok { bookings := cx8Store.bookings.filter (fun r =>
              !(r.id == 1 && r.villa == "7" && r.sub_community == "Mira 1")),
            logs := cx8Store.logs ++ [⟨"Booking Deleted", "Mira 1", "7", "Mira 4", 102, 8⟩],
            nextId := cx8Store.nextId } ∧
    (⟨1, "7", "Mira 1", "Mira 4", 102, 8⟩ : Reservation) ∉ wC8Result.bookings := by
  have h := C8_deleted_log cx8Store 1 "7" "Mira 1"
  exact ⟨by decide,
    h.1 ⟨1, "7", "Mira 1", "Mira 4", 102, 8⟩ (by decide),
    h.2.2 ⟨1, "7", "Mira 1", "Mira 4", 102, 8⟩ (by decide) rfl rfl wC8Result (by rfl)⟩

/-- C10: the daily count is blind to elapsed hours.  A claimant all of whose
reservations sit on today's date at already-passed hours — so that none is
outstanding and the active count is 0 — is still rejected with
DailyQuotaExceeded for any further non-elapsed attempt on today once two
such rows exist. -/
theorem C10_stale_daily_quota (s : Store) (now : Now) (villa sub_community court : String)
    (start_hour : Nat)
    (hrows : ∀ b ∈ s.bookings, b.villa = villa → b.sub_community = sub_community →
       b.date = now.today ∧ b.start_hour < now.hour)
    (hdaily : 2 ≤ get_daily_bookings_count s villa sub_community now.today)
    (hval : is_slot_in_past now now.today start_hour = false) :
    book s now villa sub_community court now.today start_hour
        = .error .DailyQuotaExceeded ∧
    get_active_bookings_count s now villa sub_community = 0 := by
  have hact : get_active_bookings_count s now villa sub_community = 0 := by
    unfold get_active_bookings_count
    rw [List.length_eq_zero, List.filter_eq_nil_iff]
    intro b hb
    intro hcontra
    rw [Bool.and_eq_true, Bool.and_eq_true] at hcontra
    obtain ⟨⟨hv, hc⟩, hout⟩ := hcontra
    rw [beq_iff_eq] at hv hc
    obtain ⟨hd, hh⟩ := hrows b hb hv hc
    unfold outstandingRow at hout
    rw [outstandingSlot_iff] at hout
    omega
  refine ⟨?_, hact⟩
  unfold book
  rw [if_neg (show ¬is_slot_in_past now now.today start_hour = true by simp [hval]),
    if_neg (show ¬6 ≤ get_active_bookings_count s now villa sub_community by omega),
    if_pos hdaily]

/-- Witness for C10: villa 7 holds only two already-elapsed rows for today
and its 11:00 request today is rejected on the daily quota. -/
theorem C10_witness :
    2 ≤ get_daily_bookings_count wStaleStore "7" "Mira 1" 100 ∧
    book wStaleStore wNow "7" "Mira 1" "Mira 2" 100 11 = .error .DailyQuotaExceeded ∧
    get_active_bookings_count wStaleStore wNow "7" "Mira 1" = 0 := by
  have h := C10_stale_daily_quota wStaleStore wNow "7" "Mira 1" "Mira 2" 11
    (by decide) (by decide) (by decide)
  exact ⟨by decide, h.1, h.2⟩

end Courtbooking
